import Mathlib

/-!
Shallow embedding of bnookala/node-paymentbot (src/app.js, src/configuration.js).

JavaScript strings are modelled as lists of natural-number code points
(`JStr`).  The percent-encoding primitives (`encodeURIComponent`,
`decodeURIComponent`, the query-string stringify/parse pair used by
Node `url.format` / `querystring` and by the restify query parser) are
embedded over the ASCII range, which is the range the theorems quantify
over; `decodeURIComponent` returns `none` where the JavaScript function
throws `URIError`.
-/

namespace PaymentBot

/-- A JavaScript string, as its list of character code points. -/
abbrev JStr := List Nat

/-- Code-point list of a string literal. -/
def jstr (s : String) : JStr := s.data.map Char.toNat

/-- Characters left unescaped by `encodeURIComponent` (and by Node
`querystring.escape`, which uses the same table): ASCII letters, digits,
and `- _ . ! ~ * ( )` together with the single-quote character (39). -/
def isUnreservedJS (c : Nat) : Bool :=
  (65 ≤ c && c ≤ 90) || (97 ≤ c && c ≤ 122) || (48 ≤ c && c ≤ 57) ||
  c == 45 || c == 95 || c == 46 || c == 33 || c == 126 || c == 42 ||
  c == 39 || c == 40 || c == 41

/-- Uppercase hexadecimal digit character for a value below 16. -/
def toHexDigit (n : Nat) : Nat := if n < 10 then 48 + n else 55 + n

/-- Value of a hexadecimal digit character (upper- or lowercase), or `none`. -/
def fromHexDigit (c : Nat) : Option Nat :=
  if 48 ≤ c ∧ c ≤ 57 then some (c - 48)
  else if 65 ≤ c ∧ c ≤ 70 then some (c - 55)
  else if 97 ≤ c ∧ c ≤ 102 then some (c - 87)
  else none

/-- JavaScript `encodeURIComponent`, faithful on code points below 128
(beyond ASCII the real function emits UTF-8 multi-byte escapes; all
theorems below restrict to ASCII inputs). -/
def encodeURIComponent : JStr → JStr
  | [] => []
  | c :: rest =>
    (if isUnreservedJS c then [c]
     else [37, toHexDigit (c / 16), toHexDigit (c % 16)]) ++ encodeURIComponent rest

/-- JavaScript `decodeURIComponent`; `none` models a thrown `URIError`
(a percent sign not followed by two hexadecimal digits). -/
def decodeURIComponent : JStr → Option JStr
  | [] => some []
  | c :: rest =>
    if c = 37 then
      match rest with
      | h :: l :: rest2 =>
        match fromHexDigit h, fromHexDigit l with
        | some hi, some lo => (decodeURIComponent rest2).map (fun r => (hi * 16 + lo) :: r)
        | _, _ => none
      | _ => none
    else (decodeURIComponent rest).map (fun r => c :: r)

/-- One `key=value` segment as produced by Node `querystring.stringify`:
both sides percent-encoded, joined by `=` (61). -/
def qsEscapePair (p : JStr × JStr) : JStr :=
  encodeURIComponent p.1 ++ 61 :: encodeURIComponent p.2

/-- Node `querystring.stringify`: the escaped segments joined by `&` (38). -/
def querystringStringify (q : List (JStr × JStr)) : JStr :=
  [38].intercalate (q.map qsEscapePair)

/-- The `+`-to-space substitution the query parser applies before decoding. -/
def plusToSpace (s : JStr) : JStr := s.map (fun c => if c = 43 then 32 else c)

/-- Query-parser decoding (restify queryParser / qs): `+` becomes a space,
then `decodeURIComponent`, falling back to the raw text when that throws. -/
def qsDecode (s : JStr) : JStr :=
  (decodeURIComponent (plusToSpace s)).getD (plusToSpace s)

/-- Split a query segment at its first `=` (61): the key, and the value when
an `=` is present. -/
def splitFirstEq : JStr → JStr × Option JStr
  | [] => ([], none)
  | c :: rest =>
    if c = 61 then ([], some rest)
    else ((splitFirstEq rest).1.cons c, (splitFirstEq rest).2)

/-- Decode one raw query segment into a key/value pair. -/
def parseQueryPair (seg : JStr) : JStr × JStr :=
  (qsDecode (splitFirstEq seg).1, qsDecode (((splitFirstEq seg).2).getD []))

/-- The query parser over a raw query string: split on `&` (38), then split
each segment at its first `=` and percent-decode both sides. -/
def parseQuery (s : JStr) : List (JStr × JStr) :=
  (s.splitOn 38).map parseQueryPair

/-- The query part of a request URL: everything after the first `?` (63). -/
def queryOfUrl : JStr → JStr
  | [] => []
  | c :: rest => if c = 63 then rest else queryOfUrl rest

/-- Key lookup in a decoded query-parameter map; `none` models a JavaScript
property read yielding `undefined`. -/
def qlookup (key : JStr) : List (JStr × JStr) → Option JStr
  | [] => none
  | p :: rest => if p.1 = key then some p.2 else qlookup key rest

/-- JavaScript string coercion applied by `decodeURIComponent` to its
argument: the `undefined` value prints as the string `undefined`. -/
def jsStringOrUndefined : Option JStr → JStr
  | none => jstr "undefined"
  | some s => s

/-- src/configuration.js: the environment-derived configuration.  `PORT` is
kept in its string form (`process.env.PORT` is a string; the default 3978 is
stringified by `url.format`). -/
structure Configuration where
  HOST : JStr
  PORT : JStr

/-- The bot-framework address fields read by `createReturnUrl`
(`address.id`, `address.conversation.id`, `address.user.id`,
`address.channelId`, `address.serviceUrl`), flattened. -/
structure ConversationAddress where
  id : JStr
  conversationId : JStr
  userId : JStr
  channelId : JStr
  serviceUrl : JStr

/-- The `queryObject` built inside `createReturnUrl` (src/app.js lines
114-120), in insertion order; `botServiceUrl` gets its own extra
`encodeURIComponent` pass. -/
def createReturnUrlQuery (address : ConversationAddress) : List (JStr × JStr) :=
  [ (jstr "addressId", address.id),
    (jstr "conversationId", address.conversationId),
    (jstr "userId", address.userId),
    (jstr "channelId", address.channelId),
    (jstr "botServiceUrl", encodeURIComponent address.serviceUrl) ]

/-- Node `url.format` applied to an object of the shape built in
`createReturnUrl`: protocol `http`, a hostname, a port, a pathname (a slash
is prepended since the pathname does not start with one), and a query object
serialised by `querystring.stringify` behind `?`. -/
def urlFormatHttp (hostname port pathname : JStr) (query : List (JStr × JStr)) : JStr :=
  jstr "http://" ++ hostname ++ jstr ":" ++ port ++ jstr "/" ++ pathname ++
    jstr "?" ++ querystringStringify query

/-- src/app.js `createReturnUrl` (lines 108-134): the URL object passed to
`url.format` hardcodes protocol `http`, hostname `localhost` and pathname
`approvalComplete`, and takes only the port from the configuration. -/
def createReturnUrl (c : Configuration) (address : ConversationAddress) : JStr :=
  urlFormatHttp (jstr "localhost") c.PORT (jstr "approvalComplete")
    (createReturnUrlQuery address)

/-- The parameter values `executePayment` (src/app.js lines 166-181) reads
out of `req.params`; `Option` fields model possibly-`undefined` property
reads, while `botServiceUrl` holds the result of the extra
`decodeURIComponent` pass. -/
structure ExtractedParams where
  paymentId : Option JStr
  payerId : Option JStr
  addressId : Option JStr
  conversationId : Option JStr
  channelId : Option JStr
  userId : Option JStr
  botServiceUrl : JStr
deriving DecidableEq

/-- The synchronous decode step of `executePayment`: each field is read with
no validation, and `decodeURIComponent` is applied to `botServiceUrl`
(`undefined` coercing to the string `undefined`); `none` models the
`URIError` thrown when that decode fails, which aborts the handler. -/
def executePaymentDecode (params : List (JStr × JStr)) : Option ExtractedParams :=
  (decodeURIComponent (jsStringOrUndefined (qlookup (jstr "botServiceUrl") params))).map
    (fun u =>
      { paymentId := qlookup (jstr "paymentId") params
        payerId := qlookup (jstr "PayerID") params
        addressId := qlookup (jstr "addressId") params
        conversationId := qlookup (jstr "conversationId") params
        channelId := qlookup (jstr "channelId") params
        userId := qlookup (jstr "userId") params
        botServiceUrl := u })

/-- The address object literal built in `respondToUser` (src/app.js lines
200-207); the `addressId` argument of `respondToUser` is accepted but not
used in the object. -/
structure RespondAddress where
  channelId : Option JStr
  userId : Option JStr
  userName : Option JStr
  conversationId : Option JStr
  botId : JStr
  botName : JStr
  serviceUrl : JStr
  useAuth : Bool
deriving DecidableEq

/-- src/app.js `respondToUser` address construction: user name copies the
user id, the bot entry is the constant `paybot`, `useAuth` is false. -/
def respondToUserAddress (botServiceUrl : JStr)
    (channelId addressId conversationId userId : Option JStr) : RespondAddress :=
  { channelId := channelId
    userId := userId
    userName := userId
    conversationId := conversationId
    botId := jstr "paybot"
    botName := jstr "paybot"
    serviceUrl := botServiceUrl
    useAuth := false }

/-- An outbound conversational message (`new builder.Message()` with an
address and a text). -/
structure Message where
  address : RespondAddress
  text : JStr
deriving DecidableEq

/-- One entry of the `links` array of a provider create-payment response. -/
structure PayLink where
  rel : JStr
  href : JStr
deriving DecidableEq

/-- A provider payment object, as far as the code inspects it. -/
structure Payment where
  id : JStr
  links : List PayLink
deriving DecidableEq

/-- Outcome the provider passes to the asynchronous execute callback. -/
inductive ExecuteOutcome where
  | success (payment : Payment)
  | failure (error : JStr)

/-- Messages `executePayment` (src/app.js lines 166-193) sends, given the
callback parameters and the provider execute outcome: none when the decode
step throws (the execute call is never reached) or when the provider reports
an error (the callback rethrows), and exactly the one `respondToUser`
message on success.  The payment object returned by the provider is passed
to `respondToUser` but contributes nothing to the message. -/
def executePaymentMessages (params : List (JStr × JStr))
    (outcome : ExecuteOutcome) : List Message :=
  match executePaymentDecode params with
  | none => []
  | some d =>
    match outcome with
    | .failure _ => []
    | .success _ =>
      [ { address := respondToUserAddress d.botServiceUrl d.channelId d.addressId
            d.conversationId d.userId
          text := jstr "Thanks for your payment!" } ]

/-- The `approvalComplete` route handler (src/app.js lines 42-46): it calls
`executePayment(req.params)` and then `res.send(200)`.  `some 200` is the
status actually sent; `none` models the synchronous `URIError` escaping
before `res.send(200)` runs.  The asynchronous execute outcome is never
consulted for the response. -/
def approvalCompleteResponse (params : List (JStr × JStr))
    (outcome : ExecuteOutcome) : Option Nat :=
  match executePaymentDecode params with
  | none => none
  | some _ => some 200

/-- Outcome the provider passes to the asynchronous create callback. -/
inductive CreateOutcome where
  | success (payment : Payment)
  | failure (error : JStr)

/-- Result of running the create callback of `createAndSendPayment`: the
texts sent to the session, and the error it throws, when any. -/
structure CallbackResult where
  messages : List JStr
  thrown : Option JStr
deriving DecidableEq

/-- The create callback of `createAndSendPayment` (src/app.js lines
145-160): on error it throws; on success it sends one message per link
whose `rel` is `approval_url` (the loop has no break and no other branch),
and throws nothing. -/
def createAndSendPaymentCallback (outcome : CreateOutcome) : CallbackResult :=
  match outcome with
  | .failure e => { messages := [], thrown := some e }
  | .success p =>
    { messages := p.links.filterMap
        (fun l =>
          if l.rel = jstr "approval_url" then
            some (jstr "Please pay your fine: " ++ l.href)
          else none)
      thrown := none }

/-- The second `listFines` dialog step (src/app.js lines 236-245): it
returns early exactly when the response entity is `Cancel`, and otherwise
falls through to `createAndSendPayment(session)`.  The value is whether
`createAndSendPayment` is invoked. -/
def listFinesStepTwoInvokesPayment (entity : JStr) : Bool :=
  if entity = jstr "Cancel" then false else true

/-- One line item of the hardcoded create-payment transaction. -/
structure PayItem where
  name : JStr
  sku : JStr
  price : JStr
  currency : JStr
  quantity : Nat
deriving DecidableEq

/-- The `item_list` wrapper of a create-payment transaction. -/
structure ItemList where
  items : List PayItem
deriving DecidableEq

/-- A currency/total amount pair. -/
structure Amount where
  currency : JStr
  total : JStr
deriving DecidableEq

/-- One transaction of the create-payment request. -/
structure CreateTransaction where
  item_list : ItemList
  amount : Amount
  description : JStr
deriving DecidableEq

/-- The `redirect_urls` object of the create-payment request. -/
structure RedirectUrls where
  return_url : JStr
  cancel_url : JStr
deriving DecidableEq

/-- The `payer` object of the create-payment request. -/
structure Payer where
  payment_method : JStr
deriving DecidableEq

/-- The create-payment request payload. -/
structure CreatePaymentRequest where
  intent : JStr
  payer : Payer
  redirect_urls : RedirectUrls
  transactions : List CreateTransaction
deriving DecidableEq

/-- src/app.js `createPaymentJson` (lines 58-85), field for field. -/
def createPaymentJson (returnUrl cancelUrl : JStr) : CreatePaymentRequest :=
  { intent := jstr "sale"
    payer := { payment_method := jstr "paypal" }
    redirect_urls := { return_url := returnUrl, cancel_url := cancelUrl }
    transactions := [
      { item_list := { items := [
          { name := jstr "Fine"
            sku := jstr "ParkingFine"
            price := jstr "1.00"
            currency := jstr "USD"
            quantity := 1 } ] }
        amount := { currency := jstr "USD", total := jstr "1.00" }
        description := jstr "This is your fine. Please pay it :3" } ] }

/-- One transaction of the execute-payment request. -/
structure ExecuteTransaction where
  amount : Amount
deriving DecidableEq

/-- The execute-payment request payload. -/
structure ExecutePaymentRequest where
  payer_id : JStr
  transactions : List ExecuteTransaction
deriving DecidableEq

/-- src/app.js `executePaymentJson` (lines 93-103), field for field. -/
def executePaymentJson (payerId : JStr) : ExecutePaymentRequest :=
  { payer_id := payerId
    transactions := [ { amount := { currency := jstr "USD", total := jstr "1.00" } } ] }

/-- Value of a decimal-digit string. -/
def digitsToNat (s : JStr) : Option Nat :=
  s.foldl (fun acc c =>
    acc.bind (fun a => if 48 ≤ c ∧ c ≤ 57 then some (a * 10 + (c - 48)) else none))
    (some 0)

/-- Parse a fixed-point decimal string with exactly two decimal places into
minor units (cents). -/
def parseFixed2 (s : JStr) : Option Nat :=
  match s.splitOn 46 with
  | [intPart, fracPart] =>
    if fracPart.length = 2 then
      match digitsToNat intPart, digitsToNat fracPart with
      | some i, some f => some (i * 100 + f)
      | _, _ => none
    else none
  | _ => none

/-- Format minor units (cents) with exactly two decimal places. -/
def formatFixed2 (cents : Nat) : JStr :=
  jstr (toString (cents / 100)) ++ [46, 48 + cents % 100 / 10, 48 + cents % 100 % 10]

/-- Sum of price times quantity over an item list, in minor units. -/
def itemListTotalCents (items : List PayItem) : Option Nat :=
  items.foldl
    (fun acc it => acc.bind (fun a => (parseFixed2 it.price).map (fun p => a + p * it.quantity)))
    (some 0)

theorem isUnreservedJS_lt {c : Nat} (h : isUnreservedJS c = true) : c < 128 := by
  simp only [isUnreservedJS, Bool.or_eq_true, Bool.and_eq_true, decide_eq_true_eq,
    beq_iff_eq] at h
  omega

theorem isUnreservedJS_ne37 {c : Nat} (h : isUnreservedJS c = true) : c ≠ 37 := by
  intro hc
  subst hc
  exact absurd h (by decide)

theorem fromHexDigit_toHexDigit {n : Nat} (h : n < 16) :
    fromHexDigit (toHexDigit n) = some n := by
  interval_cases n <;> decide

theorem toHexDigit_range (n : Nat) :
    48 ≤ toHexDigit n ∧ (toHexDigit n ≤ 57 ∨ 65 ≤ toHexDigit n) := by
  unfold toHexDigit
  split <;> omega

theorem decodeURIComponent_cons_ne {c : Nat} (rest : JStr) (h : c ≠ 37) :
    decodeURIComponent (c :: rest) = (decodeURIComponent rest).map (fun r => c :: r) := by
  rw [decodeURIComponent.eq_def]
  simp [h]

theorem decodeURIComponent_percent {h l : Nat} {hi lo : Nat} (rest : JStr)
    (hh : fromHexDigit h = some hi) (hl : fromHexDigit l = some lo) :
    decodeURIComponent (37 :: h :: l :: rest) =
      (decodeURIComponent rest).map (fun r => (hi * 16 + lo) :: r) := by
  simp [decodeURIComponent, hh, hl]

/-- The `decodeURIComponent` pass inverts `encodeURIComponent` on ASCII
strings. -/
theorem decodeURIComponent_encodeURIComponent (s : JStr) (hs : ∀ c ∈ s, c < 128) :
    decodeURIComponent (encodeURIComponent s) = some s := by
  induction s with
  | nil => rfl
  | cons c rest ih =>
    have hc : c < 128 := hs c (List.mem_cons_self c rest)
    have ih2 : decodeURIComponent (encodeURIComponent rest) = some rest :=
      ih (fun d hd => hs d (List.mem_cons_of_mem c hd))
    show decodeURIComponent
        ((if isUnreservedJS c then [c]
          else [37, toHexDigit (c / 16), toHexDigit (c % 16)]) ++
          encodeURIComponent rest) = some (c :: rest)
    by_cases h : isUnreservedJS c = true
    · rw [if_pos h, List.singleton_append,
        decodeURIComponent_cons_ne _ (isUnreservedJS_ne37 h), ih2]
      rfl
    · rw [if_neg h, List.cons_append, List.cons_append, List.cons_append,
        List.nil_append,
        decodeURIComponent_percent _ (fromHexDigit_toHexDigit (by omega))
          (fromHexDigit_toHexDigit (Nat.mod_lt c (by omega))), ih2]
      have hdm : c / 16 * 16 + c % 16 = c := by
        have := Nat.div_add_mod c 16
        omega
      simp [hdm]

/-- Every character emitted by `encodeURIComponent` is unreserved, a percent
sign, or a hexadecimal digit character. -/
theorem mem_encodeURIComponent {c : Nat} {s : JStr} (h : c ∈ encodeURIComponent s) :
    isUnreservedJS c = true ∨ c = 37 ∨ (48 ≤ c ∧ (c ≤ 57 ∨ 65 ≤ c)) := by
  induction s with
  | nil => simp [encodeURIComponent] at h
  | cons d rest ih =>
    have h2 : c ∈ (if isUnreservedJS d then [d]
        else [37, toHexDigit (d / 16), toHexDigit (d % 16)]) ++
        encodeURIComponent rest := h
    rcases List.mem_append.mp h2 with h3 | h3
    · by_cases hd : isUnreservedJS d = true
      · rw [if_pos hd] at h3
        rcases List.mem_singleton.mp h3 with rfl
        exact Or.inl hd
      · rw [if_neg hd] at h3
        simp only [List.mem_cons, List.mem_singleton, List.not_mem_nil, or_false] at h3
        rcases h3 with h4 | h4 | h4
        · exact Or.inr (Or.inl h4)
        · exact Or.inr (Or.inr (h4 ▸ toHexDigit_range (d / 16)))
        · exact Or.inr (Or.inr (h4 ▸ toHexDigit_range (d % 16)))
    · exact ih h3

theorem not_mem_encodeURIComponent {c : Nat} (s : JStr)
    (h1 : isUnreservedJS c = false) (h2 : c ≠ 37)
    (h3 : ¬(48 ≤ c ∧ (c ≤ 57 ∨ 65 ≤ c))) : c ∉ encodeURIComponent s := by
  intro hmem
  rcases mem_encodeURIComponent hmem with h | h | h
  · rw [h1] at h
    cases h
  · exact h2 h
  · exact h3 h

theorem amp_not_mem_encodeURIComponent (s : JStr) : 38 ∉ encodeURIComponent s :=
  not_mem_encodeURIComponent s (by decide) (by decide) (by omega)

theorem eq_not_mem_encodeURIComponent (s : JStr) : 61 ∉ encodeURIComponent s :=
  not_mem_encodeURIComponent s (by decide) (by decide) (by omega)

theorem plus_not_mem_encodeURIComponent (s : JStr) : 43 ∉ encodeURIComponent s :=
  not_mem_encodeURIComponent s (by decide) (by decide) (by omega)

theorem qm_not_mem_encodeURIComponent (s : JStr) : 63 ∉ encodeURIComponent s :=
  not_mem_encodeURIComponent s (by decide) (by decide) (by omega)

theorem toHexDigit_lt {n : Nat} (h : n < 16) : toHexDigit n < 128 := by
  unfold toHexDigit
  split <;> omega

theorem encodeURIComponent_ascii {c : Nat} {s : JStr}
    (hs : ∀ d ∈ s, d < 128) (h : c ∈ encodeURIComponent s) : c < 128 := by
  induction s with
  | nil => simp [encodeURIComponent] at h
  | cons d rest ih =>
    have hd128 : d < 128 := hs d (List.mem_cons_self d rest)
    have h2 : c ∈ (if isUnreservedJS d then [d]
        else [37, toHexDigit (d / 16), toHexDigit (d % 16)]) ++
        encodeURIComponent rest := h
    rcases List.mem_append.mp h2 with h3 | h3
    · by_cases hu : isUnreservedJS d = true
      · rw [if_pos hu] at h3
        have hcd : c = d := List.mem_singleton.mp h3
        omega
      · rw [if_neg hu] at h3
        simp only [List.mem_cons, List.mem_singleton, List.not_mem_nil, or_false] at h3
        have hx : toHexDigit (d / 16) < 128 := toHexDigit_lt (by omega)
        have hy : toHexDigit (d % 16) < 128 := toHexDigit_lt (Nat.mod_lt d (by omega))
        rcases h3 with h4 | h4 | h4 <;> omega
    · exact ih (fun e he => hs e (List.mem_cons_of_mem _ he)) h3

theorem plusToSpace_eq_self {s : JStr} (h : 43 ∉ s) : plusToSpace s = s := by
  induction s with
  | nil => rfl
  | cons c rest ih =>
    have hc : c ≠ 43 := fun hcc => h (hcc ▸ List.mem_cons_self c rest)
    have hrest : 43 ∉ rest := fun hm => h (List.mem_cons_of_mem c hm)
    show (if c = 43 then 32 else c) :: plusToSpace rest = c :: rest
    rw [if_neg hc, ih hrest]

/-- On percent-free, plus-free input the query parser decode is the
identity; in particular on the output of `encodeURIComponent` over ASCII it
recovers the original string. -/
theorem qsDecode_encodeURIComponent (s : JStr) (hs : ∀ c ∈ s, c < 128) :
    qsDecode (encodeURIComponent s) = s := by
  unfold qsDecode
  rw [plusToSpace_eq_self (plus_not_mem_encodeURIComponent s),
    decodeURIComponent_encodeURIComponent s hs]
  rfl

theorem splitFirstEq_append {p : JStr} (q : JStr) (h : 61 ∉ p) :
    splitFirstEq (p ++ 61 :: q) = (p, some q) := by
  induction p with
  | nil => simp [splitFirstEq]
  | cons c rest ih =>
    have hc : c ≠ 61 := fun hcc => h (hcc ▸ List.mem_cons_self c rest)
    have hrest : 61 ∉ rest := fun hm => h (List.mem_cons_of_mem c hm)
    simp [splitFirstEq, hc, ih hrest]

theorem queryOfUrl_append {p : JStr} (q : JStr) (h : 63 ∉ p) :
    queryOfUrl (p ++ 63 :: q) = q := by
  induction p with
  | nil => simp [queryOfUrl]
  | cons c rest ih =>
    have hc : c ≠ 63 := fun hcc => h (hcc ▸ List.mem_cons_self c rest)
    have hrest : 63 ∉ rest := fun hm => h (List.mem_cons_of_mem c hm)
    simp [queryOfUrl, hc, ih hrest]

/-- Parsing one stringified `key=value` segment recovers the pair, for ASCII
key and value with no `=` in the encoded key. -/
theorem parseQueryPair_qsEscapePair (k v : JStr)
    (hk : ∀ c ∈ k, c < 128) (hv : ∀ c ∈ v, c < 128) :
    parseQueryPair (qsEscapePair (k, v)) = (k, v) := by
  unfold parseQueryPair qsEscapePair
  rw [splitFirstEq_append _ (eq_not_mem_encodeURIComponent k)]
  simp [qsDecode_encodeURIComponent k hk, qsDecode_encodeURIComponent v hv]

theorem qlookup_cons_self (k v : JStr) (rest : List (JStr × JStr)) :
    qlookup k ((k, v) :: rest) = some v := by
  simp [qlookup]

theorem qlookup_cons_ne {k1 k : JStr} (v : JStr) (rest : List (JStr × JStr))
    (h : k1 ≠ k) : qlookup k ((k1, v) :: rest) = qlookup k rest := by
  simp [qlookup, h]

theorem qlookup_nil (k : JStr) : qlookup k [] = none := rfl

/-- Splitting the formatted URL at its first `?` recovers exactly the
stringified query, provided hostname, port and pathname are free of `?`. -/
theorem queryOfUrl_urlFormatHttp (hostname port pathname : JStr)
    (q : List (JStr × JStr)) (hh : 63 ∉ hostname) (hp : 63 ∉ port)
    (hn : 63 ∉ pathname) :
    queryOfUrl (urlFormatHttp hostname port pathname q) = querystringStringify q := by
  unfold urlFormatHttp
  rw [List.append_assoc]
  show queryOfUrl ((jstr "http://" ++ hostname ++ jstr ":" ++ port ++ jstr "/" ++
      pathname) ++ 63 :: querystringStringify q) = querystringStringify q
  apply queryOfUrl_append
  intro hmem
  simp only [List.mem_append] at hmem
  rcases hmem with ((((h1 | h1) | h1) | h1) | h1) | h1
  · exact absurd h1 (by decide)
  · exact hh h1
  · exact absurd h1 (by decide)
  · exact hp h1
  · exact absurd h1 (by decide)
  · exact hn h1

/-- The query parser inverts `querystring.stringify` on a nonempty list of
ASCII key/value pairs. -/
theorem parseQuery_querystringStringify (pairs : List (JStr × JStr))
    (hpairs : pairs ≠ [])
    (hascii : ∀ p ∈ pairs, (∀ c ∈ p.1, c < 128) ∧ (∀ c ∈ p.2, c < 128)) :
    parseQuery (querystringStringify pairs) = pairs := by
  unfold parseQuery querystringStringify
  rw [List.splitOn_intercalate (pairs.map qsEscapePair) 38 ?_ ?_]
  · rw [List.map_map]
    have hcong : ∀ p ∈ pairs, (parseQueryPair ∘ qsEscapePair) p = id p := by
      intro p hp
      obtain ⟨h1, h2⟩ := hascii p hp
      show parseQueryPair (qsEscapePair p) = p
      cases p with
      | mk k v => exact parseQueryPair_qsEscapePair k v h1 h2
    rw [List.map_congr_left hcong, List.map_id]
  · intro l hl
    obtain ⟨p, hp, rfl⟩ := List.mem_map.mp hl
    intro hmem
    unfold qsEscapePair at hmem
    rcases List.mem_append.mp hmem with h1 | h1
    · exact amp_not_mem_encodeURIComponent p.1 h1
    · rcases List.mem_cons.mp h1 with h2 | h2
      · cases h2
      · exact amp_not_mem_encodeURIComponent p.2 h2
  · simp [hpairs]

theorem qlookup_addressId (a : ConversationAddress) :
    qlookup (jstr "addressId") (createReturnUrlQuery a) = some a.id := by
  unfold createReturnUrlQuery
  rw [qlookup_cons_self]

theorem qlookup_conversationId (a : ConversationAddress) :
    qlookup (jstr "conversationId") (createReturnUrlQuery a) = some a.conversationId := by
  unfold createReturnUrlQuery
  rw [qlookup_cons_ne _ _ (by decide), qlookup_cons_self]

theorem qlookup_userId (a : ConversationAddress) :
    qlookup (jstr "userId") (createReturnUrlQuery a) = some a.userId := by
  unfold createReturnUrlQuery
  rw [qlookup_cons_ne _ _ (by decide), qlookup_cons_ne _ _ (by decide),
    qlookup_cons_self]

theorem qlookup_channelId (a : ConversationAddress) :
    qlookup (jstr "channelId") (createReturnUrlQuery a) = some a.channelId := by
  unfold createReturnUrlQuery
  rw [qlookup_cons_ne _ _ (by decide), qlookup_cons_ne _ _ (by decide),
    qlookup_cons_ne _ _ (by decide), qlookup_cons_self]

theorem qlookup_botServiceUrl (a : ConversationAddress) :
    qlookup (jstr "botServiceUrl") (createReturnUrlQuery a) =
      some (encodeURIComponent a.serviceUrl) := by
  unfold createReturnUrlQuery
  rw [qlookup_cons_ne _ _ (by decide), qlookup_cons_ne _ _ (by decide),
    qlookup_cons_ne _ _ (by decide), qlookup_cons_ne _ _ (by decide),
    qlookup_cons_self]

theorem qlookup_paymentId (a : ConversationAddress) :
    qlookup (jstr "paymentId") (createReturnUrlQuery a) = none := by
  unfold createReturnUrlQuery
  rw [qlookup_cons_ne _ _ (by decide), qlookup_cons_ne _ _ (by decide),
    qlookup_cons_ne _ _ (by decide), qlookup_cons_ne _ _ (by decide),
    qlookup_cons_ne _ _ (by decide), qlookup_nil]

theorem qlookup_payerId (a : ConversationAddress) :
    qlookup (jstr "PayerID") (createReturnUrlQuery a) = none := by
  unfold createReturnUrlQuery
  rw [qlookup_cons_ne _ _ (by decide), qlookup_cons_ne _ _ (by decide),
    qlookup_cons_ne _ _ (by decide), qlookup_cons_ne _ _ (by decide),
    qlookup_cons_ne _ _ (by decide), qlookup_nil]

/-- C1: for every valid (ASCII) ConversationAddress — including one whose
serviceUrl contains `?`, `&` or `%` — decoding the query parameters of the
return URL produced by `createReturnUrl` (through the HTTP query parser and
the synchronous decode step of `executePayment`) yields exactly the original
address fields and addressId, the serviceUrl being recovered character for
character via its extra `decodeURIComponent` pass. -/
theorem correlation_roundtrip (c : Configuration) (a : ConversationAddress)
    (hport : ∀ d ∈ c.PORT, 48 ≤ d ∧ d ≤ 57)
    (hid : ∀ d ∈ a.id, d < 128) (hconv : ∀ d ∈ a.conversationId, d < 128)
    (huser : ∀ d ∈ a.userId, d < 128) (hchan : ∀ d ∈ a.channelId, d < 128)
    (hsvc : ∀ d ∈ a.serviceUrl, d < 128) :
    executePaymentDecode (parseQuery (queryOfUrl (createReturnUrl c a))) =
      some { paymentId := none, payerId := none, addressId := some a.id,
             conversationId := some a.conversationId, channelId := some a.channelId,
             userId := some a.userId, botServiceUrl := a.serviceUrl } := by
  have hq : queryOfUrl (createReturnUrl c a) =
      querystringStringify (createReturnUrlQuery a) := by
    unfold createReturnUrl
    apply queryOfUrl_urlFormatHttp
    · decide
    · intro hmem
      have := hport 63 hmem
      omega
    · decide
  have hascii : ∀ p ∈ createReturnUrlQuery a,
      (∀ d ∈ p.1, d < 128) ∧ (∀ d ∈ p.2, d < 128) := by
    intro p hp
    unfold createReturnUrlQuery at hp
    simp only [List.mem_cons, List.not_mem_nil, or_false] at hp
    rcases hp with rfl | rfl | rfl | rfl | rfl
    · exact ⟨show ∀ d ∈ jstr "addressId", d < 128 by decide, hid⟩
    · exact ⟨show ∀ d ∈ jstr "conversationId", d < 128 by decide, hconv⟩
    · exact ⟨show ∀ d ∈ jstr "userId", d < 128 by decide, huser⟩
    · exact ⟨show ∀ d ∈ jstr "channelId", d < 128 by decide, hchan⟩
    · exact ⟨show ∀ d ∈ jstr "botServiceUrl", d < 128 by decide,
        fun d hd => encodeURIComponent_ascii hsvc hd⟩
  rw [hq, parseQuery_querystringStringify (createReturnUrlQuery a)
    (by simp [createReturnUrlQuery]) hascii]
  unfold executePaymentDecode
  rw [qlookup_botServiceUrl a,
    show jsStringOrUndefined (some (encodeURIComponent a.serviceUrl)) =
      encodeURIComponent a.serviceUrl from rfl,
    decodeURIComponent_encodeURIComponent a.serviceUrl hsvc]
  simp [qlookup_addressId, qlookup_conversationId, qlookup_userId,
    qlookup_channelId, qlookup_paymentId, qlookup_payerId]

/-- Witness for C1 at the §8 scenario address, the serviceUrl containing
`?`, `&` and `%`. -/
theorem correlation_roundtrip_witness :
    executePaymentDecode (parseQuery (queryOfUrl (createReturnUrl
        { HOST := jstr "example.test", PORT := jstr "3978" }
        { id := jstr "m0001", conversationId := jstr "c1", userId := jstr "u1",
          channelId := jstr "test", serviceUrl := jstr "http://svc/x?y=1&z=%20" }))) =
      some { paymentId := none, payerId := none, addressId := some (jstr "m0001"),
             conversationId := some (jstr "c1"), channelId := some (jstr "test"),
             userId := some (jstr "u1"),
             botServiceUrl := jstr "http://svc/x?y=1&z=%20" } :=
  correlation_roundtrip _ _ (by decide) (by decide) (by decide) (by decide)
    (by decide) (by decide)

/-- C2 counterexample: a callback query map lacking `userId` is not
rejected with any error — the decode step of `executePayment` succeeds and
yields an address whose `userId` is the JavaScript `undefined` (modelled
`none`), i.e. a partially populated address. -/
theorem missing_userId_not_rejected_cex :
    executePaymentDecode
      [ (jstr "addressId", jstr "a1"), (jstr "conversationId", jstr "c1"),
        (jstr "channelId", jstr "test"),
        (jstr "botServiceUrl", jstr "http%3A%2F%2Fsvc") ] =
      some { paymentId := none, payerId := none, addressId := some (jstr "a1"),
             conversationId := some (jstr "c1"), channelId := some (jstr "test"),
             userId := none, botServiceUrl := jstr "http://svc" } := by
  decide

/-- C2 amended: `executePayment` performs no missing-field validation.  Its
decode step fails only when the `decodeURIComponent` pass on `botServiceUrl`
throws; every other field — `userId` in particular — is passed through
unchecked, so an absent field yields a partially populated address rather
than any MissingField error. -/
theorem executePaymentDecode_no_validation (params : List (JStr × JStr)) :
    (executePaymentDecode params = none ↔
      decodeURIComponent (jsStringOrUndefined
        (qlookup (jstr "botServiceUrl") params)) = none) ∧
    (∀ d, executePaymentDecode params = some d →
      d.userId = qlookup (jstr "userId") params) := by
  constructor
  · unfold executePaymentDecode
    cases h : decodeURIComponent (jsStringOrUndefined
        (qlookup (jstr "botServiceUrl") params)) with
    | none => simp
    | some u => simp
  · intro d hd
    unfold executePaymentDecode at hd
    cases h : decodeURIComponent (jsStringOrUndefined
        (qlookup (jstr "botServiceUrl") params)) with
    | none =>
      rw [h] at hd
      cases hd
    | some u =>
      rw [h] at hd
      simp only [Option.map_some', Option.some.injEq] at hd
      rw [← hd]

/-- Witness for C2 amended: at a map holding only `botServiceUrl`, the
extracted `userId` equals the (absent) `userId` lookup. -/
theorem executePaymentDecode_no_validation_witness :
    ({ paymentId := none, payerId := none, addressId := none,
       conversationId := none, channelId := none, userId := none,
       botServiceUrl := jstr "x" } : ExtractedParams).userId =
      qlookup (jstr "userId") [ (jstr "botServiceUrl", jstr "x") ] :=
  (executePaymentDecode_no_validation [ (jstr "botServiceUrl", jstr "x") ]).2
    _ (by decide)

/-- C3 counterexample: a prompt response entity that is neither `Pay fine`
nor `Cancel` still invokes createAndSendPayment, so a non-`Pay fine`
response does not always end the flow without side effects. -/
theorem listFines_other_invokes_cex :
    listFinesStepTwoInvokesPayment (jstr "Refuse") = true ∧
    jstr "Refuse" ≠ jstr "Pay fine" ∧ jstr "Refuse" ≠ jstr "Cancel" := by
  decide

/-- C3 amended: the second `listFines` dialog step invokes
createAndSendPayment exactly when the response entity differs from
`Cancel`; only a `Cancel` response ends the flow with no side effects. -/
theorem listFines_invokes_iff (entity : JStr) :
    listFinesStepTwoInvokesPayment entity = true ↔ entity ≠ jstr "Cancel" := by
  unfold listFinesStepTwoInvokesPayment
  by_cases h : entity = jstr "Cancel" <;> simp [h]

/-- C4: at a provider create response whose links carry no `approval_url`
entry, the create callback of createAndSendPayment sends no message and
raises no error — it silently completes instead of reporting the
NoApprovalLink failure the specification requires. -/
theorem no_approval_link_silent :
    createAndSendPaymentCallback (CreateOutcome.success
      { id := jstr "PAY-1",
        links := [ { rel := jstr "self", href := jstr "http://api.test/self" } ] }) =
      { messages := [], thrown := none } := by
  decide

/-- C5: whenever the decode step of `executePayment` succeeds and the
provider execute call succeeds, exactly one outbound message is sent, and
its address is wholly determined by the decoded callback parameters — the
provider payment object does not occur in it. -/
theorem executePayment_one_message (params : List (JStr × JStr))
    (payment : Payment) (d : ExtractedParams)
    (h : executePaymentDecode params = some d) :
    executePaymentMessages params (ExecuteOutcome.success payment) =
      [ { address := respondToUserAddress d.botServiceUrl d.channelId d.addressId
            d.conversationId d.userId
          text := jstr "Thanks for your payment!" } ] ∧
    (executePaymentMessages params (ExecuteOutcome.success payment)).length = 1 := by
  unfold executePaymentMessages
  rw [h]
  exact ⟨rfl, rfl⟩

/-- Witness for C5 at a concrete callback map and payment. -/
theorem executePayment_one_message_witness :
    executePaymentMessages [ (jstr "botServiceUrl", jstr "http") ]
        (ExecuteOutcome.success { id := jstr "PAY-1", links := [] }) =
      [ { address := respondToUserAddress (jstr "http") none none none none
          text := jstr "Thanks for your payment!" } ] ∧
    (executePaymentMessages [ (jstr "botServiceUrl", jstr "http") ]
        (ExecuteOutcome.success { id := jstr "PAY-1", links := [] })).length = 1 :=
  executePayment_one_message _ _
    { paymentId := none, payerId := none, addressId := none,
      conversationId := none, channelId := none, userId := none,
      botServiceUrl := jstr "http" } (by decide)

/-- C6: the transaction totals of createPaymentJson and executePaymentJson
agree, and both equal the item-list sum of price times quantity (100 cents)
formatted with exactly two decimal places. -/
theorem amount_consistency (returnUrl cancelUrl payerId : JStr) :
    (createPaymentJson returnUrl cancelUrl).transactions.map (fun t => t.amount.total) =
      (executePaymentJson payerId).transactions.map (fun t => t.amount.total) ∧
    (createPaymentJson returnUrl cancelUrl).transactions.map
      (fun t => itemListTotalCents t.item_list.items) = [some 100] ∧
    (createPaymentJson returnUrl cancelUrl).transactions.map (fun t => t.amount.total) =
      [formatFixed2 100] :=
  ⟨rfl, rfl, rfl⟩

/-- C7 counterexample: a callback request whose `botServiceUrl` parameter is
a bare percent sign makes the synchronous decode step throw, so
`res.send(200)` is never reached and the response is not 200. -/
theorem approvalComplete_not_always_200_cex :
    approvalCompleteResponse [ (jstr "botServiceUrl", jstr "%") ]
      (ExecuteOutcome.success { id := jstr "PAY-1", links := [] }) = none := by
  decide

/-- C7 amended: for every callback request whose `botServiceUrl` decodes
successfully, the HTTP response is 200 regardless of the downstream execute
outcome (which the handler never consults); a request whose decode throws
aborts the handler before the 200 is sent. -/
theorem approvalComplete_200 (params : List (JStr × JStr))
    (o1 o2 : ExecuteOutcome) (d : ExtractedParams)
    (h : executePaymentDecode params = some d) :
    approvalCompleteResponse params o1 = some 200 ∧
    approvalCompleteResponse params o1 = approvalCompleteResponse params o2 := by
  unfold approvalCompleteResponse
  rw [h]
  exact ⟨rfl, rfl⟩

/-- Witness for C7 amended at a concrete decodable request. -/
theorem approvalComplete_200_witness :
    approvalCompleteResponse [ (jstr "botServiceUrl", jstr "http") ]
        (ExecuteOutcome.success { id := jstr "PAY-1", links := [] }) = some 200 ∧
    approvalCompleteResponse [ (jstr "botServiceUrl", jstr "http") ]
        (ExecuteOutcome.success { id := jstr "PAY-1", links := [] }) =
      approvalCompleteResponse [ (jstr "botServiceUrl", jstr "http") ]
        (ExecuteOutcome.failure (jstr "boom")) :=
  approvalComplete_200 _ _ _
    { paymentId := none, payerId := none, addressId := none,
      conversationId := none, channelId := none, userId := none,
      botServiceUrl := jstr "http" } (by decide)

/-- C8: createPaymentJson returns intent `sale`, payer method `paypal`, the
two redirect urls as given, and exactly one transaction carrying the item
list, the two-decimal fixed-point total and the description; the function
is a total data transform with no error paths. -/
theorem createPaymentJson_shape (returnUrl cancelUrl : JStr) :
    (createPaymentJson returnUrl cancelUrl).intent = jstr "sale" ∧
    (createPaymentJson returnUrl cancelUrl).payer.payment_method = jstr "paypal" ∧
    (createPaymentJson returnUrl cancelUrl).redirect_urls.return_url = returnUrl ∧
    (createPaymentJson returnUrl cancelUrl).redirect_urls.cancel_url = cancelUrl ∧
    (createPaymentJson returnUrl cancelUrl).transactions =
      [ { item_list := { items := [
            { name := jstr "Fine", sku := jstr "ParkingFine", price := jstr "1.00",
              currency := jstr "USD", quantity := 1 } ] }
          amount := { currency := jstr "USD", total := formatFixed2 100 }
          description := jstr "This is your fine. Please pay it :3" } ] :=
  ⟨rfl, rfl, rfl, rfl, rfl⟩

/-- C9: createPaymentJson is deterministic — two calls with identical
inputs yield structurally identical outputs, with no hidden randomness or
timestamps. -/
theorem createPaymentJson_deterministic (r1 c1 r2 c2 : JStr)
    (hr : r1 = r2) (hc : c1 = c2) :
    createPaymentJson r1 c1 = createPaymentJson r2 c2 := by
  rw [hr, hc]

/-- Witness for C9 at concrete urls. -/
theorem createPaymentJson_deterministic_witness :
    createPaymentJson (jstr "http://localhost:3978/approvalComplete")
        (jstr "http://localhost") =
      createPaymentJson (jstr "http://localhost:3978/approvalComplete")
        (jstr "http://localhost") :=
  createPaymentJson_deterministic _ _ _ _ rfl rfl

/-- C10: for every address and any configured HOST, the return URL has
protocol http, hostname `localhost`, pathname `approvalComplete` and the
configured PORT; the HOST value is never consulted. -/
theorem createReturnUrl_localhost_only (h1 h2 p : JStr) (a : ConversationAddress) :
    createReturnUrl { HOST := h1, PORT := p } a =
      createReturnUrl { HOST := h2, PORT := p } a ∧
    createReturnUrl { HOST := h1, PORT := p } a =
      jstr "http://" ++ jstr "localhost" ++ jstr ":" ++ p ++ jstr "/" ++
      jstr "approvalComplete" ++ jstr "?" ++
      querystringStringify (createReturnUrlQuery a) :=
  ⟨rfl, rfl⟩

end PaymentBot
